import Mathlib

/-!
Shallow embedding of the Fury serialization engine core
(src/javascript/packages/fury/lib/fury.ts) and proofs about its header
framing, ownership model, resolver resets and registration API.

The engine file itself is translated statement by statement.  Its
collaborators (BinaryWriter, BinaryReader, ReferenceResolver,
ClassResolver, ConfigFlags, Language, generateSerializer) live in modules
that are not part of the excerpt; they are modelled from the spec, with a
doc comment naming what is missing wherever that is the case.
-/

namespace Fury

/-- A byte is stored as a natural number; writer primitives reduce it mod 256. -/
abbrev Byte := Nat

/-- Opaque payload values handed to codecs; a JS value that is not the null
sentinel is abstracted as a list of naturals.  The nullable JS value that
`serialize`/`deserialize` traffic in is `Option Value`, with `none` standing
for the JS `null` sentinel. -/
abbrev Value := List Nat

/-- Modelled from the spec: the header bitmap flag constants of `ConfigFlags`
(module `./type`, not in the excerpt).  The wire table of the spec fixes the
bit positions: bit0 isNull, bit1 isLittleEndian, bit2 isCrossLanguage,
bit3 isOutOfBand. -/
def ConfigFlags.isNullFlag : Nat := 1

/-- Modelled from the spec: little-endian flag, bit 1 of the header bitmap. -/
def ConfigFlags.isLittleEndianFlag : Nat := 2

/-- Modelled from the spec: cross-language flag, bit 2 of the header bitmap. -/
def ConfigFlags.isCrossLanguageFlag : Nat := 4

/-- Modelled from the spec: out-of-band flag, bit 3 of the header bitmap. -/
def ConfigFlags.isOutOfBandFlag : Nat := 8

/-- Modelled from the spec: the language tag for cross-language mode
(`Language.XLANG` of module `./type`, not in the excerpt).  The spec calls it
an enumerated source-runtime identifier that is written but never validated
on read, so its concrete value is irrelevant to every claim. -/
def Language.XLANG : Nat := 0

/-- Engine configuration (`Config` of module `./type`).  The hook table's
contract is unspecified by the spec; it is modelled as the list of
extension-point names that were installed. -/
structure Config where
  refTracking : Bool
  useSliceString : Bool
  hooks : List String
deriving Repr, DecidableEq

/-- The default configuration used by the engine constructor when no
configuration argument is supplied. -/
def defaultConfig : Config :=
  { refTracking := false, useSliceString := false, hooks := [] }

/-- Errors surfaced by the engine.  The source throws plain `Error` values;
the spec sorts them into ownership violations, protocol violations and codec
errors, and the modelled bounds-checked reader adds an out-of-bounds read
failure. -/
inductive FuryError where
  | ownershipViolation (msg : String)
  | protocolViolation (msg : String)
  | readOutOfBounds
  | codecError (msg : String)
deriving Repr, DecidableEq

/-- The message `serializeInternal` wraps around a writer `OwnershipError`. -/
def permissionDeniedMsg : String :=
  "Permission denied. To release the serialization ownership, you must call the dispose function returned by serializeVolatile."

/-- Little-endian 4-byte decomposition of a 32-bit quantity. -/
def bytesLE4 (v : Nat) : List Byte :=
  [v % 256, v / 256 % 256, v / 65536 % 256, v / 16777216 % 256]

/-- Modelled from the spec: the state of the `BinaryWriter` (module
`./writer`, not in the excerpt).  `data` is the logical buffer content up to
the cursor, `reserved` the requested capacity, and `locked` the
pending-release marker installed by the aliasing extraction. -/
structure WriterState where
  data : List Byte
  cursor : Nat
  reserved : Nat
  locked : Bool
deriving Repr, DecidableEq

/-- Modelled from the spec: `reset()` fails when a pending-release marker is
present (an undisposed alias from a prior volatile call) and otherwise
rewinds the buffer. -/
def WriterState.reset (w : WriterState) : Except Unit WriterState :=
  if w.locked then .error ()
  else .ok { data := [], cursor := 0, reserved := w.reserved, locked := false }

/-- Modelled from the spec: append one byte and advance the cursor. -/
def WriterState.uint8 (w : WriterState) (b : Nat) : WriterState :=
  { w with data := w.data ++ [b % 256], cursor := w.cursor + 1 }

/-- Modelled from the spec: append a little-endian 32-bit integer. -/
def WriterState.uint32 (w : WriterState) (v : Nat) : WriterState :=
  { w with data := w.data ++ bytesLE4 v, cursor := w.cursor + 4 }

/-- Modelled from the spec: advance the cursor leaving a gap (zero bytes to
be patched later). -/
def WriterState.skip (w : WriterState) (n : Nat) : WriterState :=
  { w with data := w.data ++ List.replicate n 0, cursor := w.cursor + n }

/-- Modelled from the spec: the current cursor position. -/
def WriterState.getCursor (w : WriterState) : Nat := w.cursor

/-- Modelled from the spec: grow capacity without advancing the logical
length. -/
def WriterState.reserve (w : WriterState) (n : Nat) : WriterState :=
  { w with reserved := max w.reserved (w.cursor + n) }

/-- Overwrite the bytes of `l` starting at position `pos` with `repl`,
never growing `l`. -/
def overwriteAt : List Byte → Nat → List Byte → List Byte
  | [], _, _ => []
  | l, 0, [] => l
  | _ :: t, 0, r :: rs => r :: overwriteAt t 0 rs
  | h :: t, n + 1, repl => h :: overwriteAt t n repl

/-- Modelled from the spec: patch a previously skipped 4-byte field in place
with a little-endian 32-bit value. -/
def WriterState.setUint32Position (w : WriterState) (pos : Nat) (v : Nat) : WriterState :=
  { w with data := overwriteAt w.data pos (bytesLE4 v) }

/-- Modelled from the spec: the copying extraction; it returns an independent
byte sequence and leaves the buffer immediately reusable. -/
def WriterState.dump (w : WriterState) : List Byte × WriterState :=
  (w.data, w)

/-- Modelled from the spec: the aliasing extraction; it returns a view over
the live storage and installs the pending-release marker. -/
def WriterState.dumpAndOwn (w : WriterState) : List Byte × WriterState :=
  (w.data, { w with locked := true })

/-- Modelled from the spec: the disposer returned alongside an aliasing
extraction clears the pending-release marker. -/
def WriterState.dispose (w : WriterState) : WriterState :=
  { w with locked := false }

/-- Modelled from the spec: the state of the `BinaryReader` (module
`./reader`, not in the excerpt): the input bytes and a cursor. -/
structure ReaderState where
  bytes : List Byte
  cursor : Nat
deriving Repr, DecidableEq

/-- Modelled from the spec: rewind the reader over fresh input bytes. -/
def ReaderState.reset (_ : ReaderState) (bs : List Byte) : ReaderState :=
  { bytes := bs, cursor := 0 }

/-- Modelled from the spec: read one byte and advance the cursor; reading
past the end of the input fails (the reader is bounds checked, in line with
the propagation policy that a call either returns a value or fails
outright). -/
def ReaderState.uint8 (r : ReaderState) : Except Unit (Nat × ReaderState) :=
  match r.bytes[r.cursor]? with
  | some b => .ok (b, { r with cursor := r.cursor + 1 })
  | none => .error ()

/-- Modelled from the spec: read a little-endian signed 32-bit integer and
advance the cursor by four; fails past the end of the input. -/
def ReaderState.int32 (r : ReaderState) : Except Unit (Int × ReaderState) :=
  match r.bytes[r.cursor]?, r.bytes[r.cursor + 1]?, r.bytes[r.cursor + 2]?,
      r.bytes[r.cursor + 3]? with
  | some b0, some b1, some b2, some b3 =>
    let u := b0 % 256 + b1 % 256 * 256 + b2 % 256 * 65536 + b3 % 256 * 16777216
    let v : Int := if u < 2147483648 then (u : Int) else (u : Int) - 4294967296
    .ok (v, { r with cursor := r.cursor + 4 })
  | _, _, _, _ => .error ()

/-- Modelled from the spec: the per-call Reference Resolver state (module
`./referenceResolver`, not in the excerpt): an object-identity table on the
write side and an index-addressed table on the read side. -/
structure RefResolverState where
  writtenObjects : List Value
  readObjects : List Value
deriving Repr, DecidableEq

/-- Modelled from the spec: `reset()` empties both per-call tables. -/
def RefResolverState.reset : RefResolverState :=
  { writtenObjects := [], readObjects := [] }

/-- Modelled from the spec: the Class Resolver (module `./classResolver`, not
in the excerpt): a persistent type-id table seeded at construction plus
per-call transient bookkeeping. -/
structure ClassResolverState where
  table : List (Nat × Nat)
  transient : List Nat
deriving Repr, DecidableEq

/-- Modelled from the spec: the persistent table seeded with built-in
primitive and container type identifiers at engine construction. -/
def ClassResolverState.initTable : List (Nat × Nat) :=
  [(0, 0), (1, 1), (2, 2)]

/-- Modelled from the spec: `reset()` clears only the transient layer; the
persistent table survives for the engine's lifetime. -/
def ClassResolverState.reset (s : ClassResolverState) : ClassResolverState :=
  { s with transient := [] }

/-- The mutable state owned by one engine instance: its configuration, one
writer, one reader, one Reference Resolver and one Class Resolver.  Every
engine operation threads this state explicitly. -/
structure EngineState where
  config : Config
  binaryWriter : WriterState
  binaryReader : ReaderState
  referenceResolver : RefResolverState
  classResolver : ClassResolverState
deriving Repr, DecidableEq

/-- The fixed-size hint carried by a codec (`serializer.meta.fixedSize`). -/
structure SerializerMeta where
  fixedSize : Nat
deriving Repr, DecidableEq

/-- A codec bound to the engine: a fixed-size hint and symmetric write/read
routines over the engine state.  `write` receives the (possibly null) value;
`read` returns the engine state it stopped in together with its outcome. -/
structure Serializer where
  meta : SerializerMeta
  write : Option Value → EngineState → EngineState
  read : EngineState → EngineState × Except FuryError (Option Value)

/-- The engine constructor: fresh writer, reader and resolvers, the Class
Resolver's persistent table seeded with the built-in registrations
(`classResolver.init(this)`). -/
def mkEngine (config : Config) : EngineState :=
  { config := config
    binaryWriter := { data := [], cursor := 0, reserved := 0, locked := false }
    binaryReader := { bytes := [], cursor := 0 }
    referenceResolver := RefResolverState.reset
    classResolver := { table := ClassResolverState.initTable, transient := [] } }

/-- The engine constructor applied with no configuration argument: the
source's default parameter supplies `refTracking: false`,
`useSliceString: false` and an empty hook table. -/
def mkEngineDefault : EngineState := mkEngine defaultConfig

/-- The header bitmap computed by `serializeInternal`: starting from 0, the
null flag is or-ed in when the data is the null sentinel, then the
little-endian and cross-language flags are or-ed in unconditionally. -/
def headerBitmap (data : Option Value) : Nat :=
  ((if data = none then 0 ||| ConfigFlags.isNullFlag else 0)
    ||| ConfigFlags.isLittleEndianFlag) ||| ConfigFlags.isCrossLanguageFlag

/-- The part of `serializeInternal` between the writer reset and the codec
invocation, in source order: reset the Reference Resolver, reset the Class
Resolver, write the bitmap, write the language tag, record the cursor, skip
4 bytes for the native-object offset, write a zero 32-bit native-object
count, and reserve the codec's fixed-size hint.  Returns the recorded cursor
together with the state handed to the codec's write routine. -/
def Engine.frameHeader (st : EngineState) (data : Option Value) (serializer : Serializer) :
    Nat × EngineState :=
  let st1 := { st with referenceResolver := RefResolverState.reset
                       classResolver := st.classResolver.reset }
  let st2 := { st1 with binaryWriter :=
    (st1.binaryWriter.uint8 (headerBitmap data)).uint8 Language.XLANG }
  let cursor := st2.binaryWriter.getCursor
  let st3 := { st2 with binaryWriter :=
    ((st2.binaryWriter.skip 4).uint32 0).reserve serializer.meta.fixedSize }
  (cursor, st3)

/-- Translation of `serializeInternal`: attempt the writer reset, mapping a
writer ownership failure to the permission-denied error; then write the
frame header, invoke the codec's write routine, and patch the recorded
4-byte placeholder with the post-write cursor position. -/
def Engine.serializeInternal (st : EngineState) (data : Option Value) (serializer : Serializer) :
    Except FuryError EngineState :=
  match st.binaryWriter.reset with
  | .error _ => .error (.ownershipViolation permissionDeniedMsg)
  | .ok w0 =>
    let p := Engine.frameHeader { st with binaryWriter := w0 } data serializer
    let st4 := serializer.write data p.2
    .ok { st4 with binaryWriter :=
      st4.binaryWriter.setUint32Position p.1 st4.binaryWriter.getCursor }

/-- Translation of `serialize`: the write path followed by the copying
extraction.  On failure the engine state is returned unchanged. -/
def Engine.serialize (st : EngineState) (data : Option Value) (serializer : Serializer) :
    EngineState × Except FuryError (List Byte) :=
  match Engine.serializeInternal st data serializer with
  | .error e => (st, .error e)
  | .ok s =>
    let p := s.binaryWriter.dump
    ({ s with binaryWriter := p.2 }, .ok p.1)

/-- Translation of `serializeVolatile`: the write path followed by the
aliasing extraction, which installs the pending-release marker. -/
def Engine.serializeVolatile (st : EngineState) (data : Option Value) (serializer : Serializer) :
    EngineState × Except FuryError (List Byte) :=
  match Engine.serializeInternal st data serializer with
  | .error e => (st, .error e)
  | .ok s =>
    let p := s.binaryWriter.dumpAndOwn
    ({ s with binaryWriter := p.2 }, .ok p.1)

/-- The disposer handed back by `serializeVolatile`: it clears the writer's
pending-release marker, releasing serialization ownership. -/
def Engine.dispose (st : EngineState) : EngineState :=
  { st with binaryWriter := st.binaryWriter.dispose }

/-- The per-call resets at the head of `deserialize`, in source order: reset
the Reference Resolver, reset the Class Resolver's transient layer, and
rewind the reader over the input bytes. -/
def Engine.resetForRead (st : EngineState) (bytes : List Byte) : EngineState :=
  { st with referenceResolver := RefResolverState.reset
            classResolver := st.classResolver.reset
            binaryReader := st.binaryReader.reset bytes }

/-- The part of `deserialize` after the per-call resets: read the bitmap,
return the null sentinel when the null flag is set, validate the
little-endian and cross-language flags, skip the language tag, validate the
out-of-band flag, skip the native-object offset and count, then hand over to
the codec's read routine. -/
def Engine.readBody (st0 : EngineState) (serializer : Serializer) :
    EngineState × Except FuryError (Option Value) :=
  match st0.binaryReader.uint8 with
  | .error _ => (st0, .error .readOutOfBounds)
  | .ok (bitmap, r1) =>
    let st1 := { st0 with binaryReader := r1 }
    if bitmap &&& ConfigFlags.isNullFlag == ConfigFlags.isNullFlag then
      (st1, .ok none)
    else
      let isLittleEndian := bitmap &&& ConfigFlags.isLittleEndianFlag
        == ConfigFlags.isLittleEndianFlag
      if !isLittleEndian then
        (st1, .error (.protocolViolation "big endian is not supported now"))
      else
        let isCrossLanguage := bitmap &&& ConfigFlags.isCrossLanguageFlag
          == ConfigFlags.isCrossLanguageFlag
        if !isCrossLanguage then
          (st1, .error (.protocolViolation "support crosslanguage mode only"))
        else
          match st1.binaryReader.uint8 with
          | .error _ => (st1, .error .readOutOfBounds)
          | .ok (_, r2) =>
            let st2 := { st1 with binaryReader := r2 }
            let isOutOfBandEnabled := bitmap &&& ConfigFlags.isOutOfBandFlag
              == ConfigFlags.isOutOfBandFlag
            if isOutOfBandEnabled then
              (st2, .error (.protocolViolation "outofband mode is not supported now"))
            else
              match st2.binaryReader.int32 with
              | .error _ => (st2, .error .readOutOfBounds)
              | .ok (_, r3) =>
                let st3 := { st2 with binaryReader := r3 }
                match st3.binaryReader.int32 with
                | .error _ => (st3, .error .readOutOfBounds)
                | .ok (_, r4) =>
                  serializer.read { st3 with binaryReader := r4 }

/-- Translation of `deserialize`: the per-call resets followed by the read
body. -/
def Engine.deserialize (st : EngineState) (bytes : List Byte) (serializer : Serializer) :
    EngineState × Except FuryError (Option Value) :=
  Engine.readBody (Engine.resetForRead st bytes) serializer

/-- Modelled from the spec: a type description is an external, declarative
schema object; only its identity and per-field size hints matter to the
engine, which never inspects it beyond handing it to codec compilation. -/
structure TypeDescription where
  typeId : Nat
  fieldSizes : List Nat
deriving Repr, DecidableEq

/-- Modelled from the spec: codec compilation (`generateSerializer` of module
`./gen`, not in the excerpt).  It deterministically turns a type description
into a codec exposing a fixed-size hint; the concrete read/write strategy is
irrelevant to the engine-level claims, so a simple tag-and-payload encoding
stands in for it. -/
def generateSerializer (_fury : EngineState) (d : TypeDescription) : Serializer :=
  { meta := { fixedSize := d.fieldSizes.sum }
    write := fun data s =>
      match data with
      | none => { s with binaryWriter := s.binaryWriter.uint8 0 }
      | some v =>
        { s with binaryWriter :=
            v.foldl (fun w b => w.uint8 b) (s.binaryWriter.uint8 1) }
    read := fun s =>
      match s.binaryReader.uint8 with
      | .error _ => (s, .error .readOutOfBounds)
      | .ok (tag, r1) =>
        let s1 := { s with binaryReader := r1 }
        if tag == 0 then (s1, .ok none)
        else
          let rest := s1.binaryReader.bytes.drop s1.binaryReader.cursor
          ({ s1 with binaryReader :=
              { s1.binaryReader with cursor := s1.binaryReader.bytes.length } },
            .ok (some rest)) }

/-- The record of closures returned by `registerSerializer`. -/
structure RegisteredHandle where
  serializer : Serializer
  serialize : Option Value → EngineState → EngineState × Except FuryError (List Byte)
  serializeVolatile : Option Value → EngineState → EngineState × Except FuryError (List Byte)
  deserialize : List Byte → EngineState → EngineState × Except FuryError (Option Value)

/-- Translation of `registerSerializer`: compile the codec once with
`generateSerializer` and return it together with closures that apply the
engine operations with that codec.  The source closures capture the mutable
engine object; here they take the engine state at call time explicitly. -/
def Engine.registerSerializer (st : EngineState) (d : TypeDescription) : RegisteredHandle :=
  let serializer := generateSerializer st d
  { serializer := serializer
    serialize := fun data st' => Engine.serialize st' data serializer
    serializeVolatile := fun data st' => Engine.serializeVolatile st' data serializer
    deserialize := fun bytes st' => Engine.deserialize st' bytes serializer }

/-- A minimal codec used to instantiate claims at concrete inputs: writes
nothing, reads nothing, zero fixed-size hint. -/
def trivialSerializer : Serializer :=
  { meta := { fixedSize := 0 }
    write := fun _ s => s
    read := fun s => (s, .ok none) }

/-- Modelled from the spec: the header bitmap as the wire-format table of the
spec describes it, bit by bit: bit0 set iff the value is the null sentinel,
bit1 (little-endian) and bit2 (cross-language) always set, bit3 (out-of-band)
never set. -/
def specHeaderBitmap (data : Option Value) : Nat :=
  (if data = none then 1 else 0) + 2 + 4

/-- Modelled from the spec: the nine-step write path of the spec, step by
step in the spec's own order: (1) attempt the writer reset, propagating an
ownership violation; (2) reset the Reference Resolver and the Class
Resolver's transient state; (3) compute and write the header bitmap;
(4) write the language tag; (5) record the cursor, write a 4-byte
placeholder and a 4-byte zero native-object count; (6) pre-reserve the
codec's fixed-size hint; (7) invoke the codec's write routine; (8) patch the
placeholder with the post-write cursor position.  Step (9), extraction, is
performed by the calling operation. -/
def specWritePath (st : EngineState) (data : Option Value) (codec : Serializer) :
    Except FuryError EngineState :=
  match st.binaryWriter.reset with
  | .error _ => .error (.ownershipViolation permissionDeniedMsg)
  | .ok w =>
    let s1 := { st with binaryWriter := w }
    let s2 := { s1 with referenceResolver := RefResolverState.reset
                        classResolver := s1.classResolver.reset }
    let s3 := { s2 with binaryWriter := s2.binaryWriter.uint8 (specHeaderBitmap data) }
    let s4 := { s3 with binaryWriter := s3.binaryWriter.uint8 Language.XLANG }
    let c := s4.binaryWriter.getCursor
    let s5 := { s4 with binaryWriter := s4.binaryWriter.skip 4 }
    let s6 := { s5 with binaryWriter := s5.binaryWriter.uint32 0 }
    let s7 := { s6 with binaryWriter := s6.binaryWriter.reserve codec.meta.fixedSize }
    let s8 := codec.write data s7
    .ok { s8 with binaryWriter :=
      s8.binaryWriter.setUint32Position c s8.binaryWriter.getCursor }

/-- Discriminator for protocol violations, used to state that a given error
is not one. -/
def FuryError.isProtocolViolation : FuryError → Bool
  | .protocolViolation _ => true
  | _ => false

section Lemmas

/-- The flag test the source writes as a mask-and-compare agrees with the
corresponding bit of the bitmap, for each of the four header flags. -/
lemma and_flag_beq (b i : Nat) :
    (b &&& 2 ^ i == 2 ^ i) = b.testBit i := by
  have hpos : 0 < 2 ^ i := Nat.pos_pow_of_pos i (by norm_num)
  rw [Nat.and_two_pow]
  cases h : b.testBit i
  · simp
    omega
  · simp

/-- The bitmap the source computes by or-ing flags equals the spec's bit
table reading of the header byte. -/
lemma headerBitmap_eq_spec (data : Option Value) :
    headerBitmap data = specHeaderBitmap data := by
  cases data with
  | none => decide
  | some v =>
    simp only [headerBitmap, specHeaderBitmap, Option.some_ne_none, if_false,
      reduceCtorEq, if_neg, not_false_eq_true]
    decide

end Lemmas

/-- The engine state right after the per-call resets of `deserialize`, with
the reader parked at cursor `n` over the input: both Reference Resolver
tables empty, the Class Resolver's transient layer empty and its persistent
table untouched. -/
def afterHeaderState (st : EngineState) (bytes : List Byte) (n : Nat) : EngineState :=
  { st with referenceResolver := RefResolverState.reset
            classResolver := st.classResolver.reset
            binaryReader := { bytes := bytes, cursor := n } }

section Lemmas2

/-- Specialization of the flag test to the null flag (bit 0). -/
lemma and_null_beq (b : Nat) :
    (b &&& ConfigFlags.isNullFlag == ConfigFlags.isNullFlag) = b.testBit 0 := by
  have h := and_flag_beq b 0
  norm_num at h
  simpa [ConfigFlags.isNullFlag] using h

/-- Specialization of the flag test to the little-endian flag (bit 1). -/
lemma and_le_beq (b : Nat) :
    (b &&& ConfigFlags.isLittleEndianFlag == ConfigFlags.isLittleEndianFlag) = b.testBit 1 := by
  have h := and_flag_beq b 1
  norm_num at h
  simpa [ConfigFlags.isLittleEndianFlag] using h

/-- Specialization of the flag test to the cross-language flag (bit 2). -/
lemma and_xlang_beq (b : Nat) :
    (b &&& ConfigFlags.isCrossLanguageFlag == ConfigFlags.isCrossLanguageFlag) = b.testBit 2 := by
  have h := and_flag_beq b 2
  norm_num at h
  simpa [ConfigFlags.isCrossLanguageFlag] using h

/-- Specialization of the flag test to the out-of-band flag (bit 3). -/
lemma and_oob_beq (b : Nat) :
    (b &&& ConfigFlags.isOutOfBandFlag == ConfigFlags.isOutOfBandFlag) = b.testBit 3 := by
  have h := and_flag_beq b 3
  norm_num at h
  simpa [ConfigFlags.isOutOfBandFlag] using h

/-- A stream whose first byte carries the null flag makes `deserialize`
return the null sentinel after exactly one byte, whatever the codec and the
rest of the stream. -/
lemma deserialize_null_flag (st : EngineState) (bytes : List Byte) (ser : Serializer) (b : Nat)
    (h0 : bytes[0]? = some b) (h : b.testBit 0 = true) :
    Engine.deserialize st bytes ser = (afterHeaderState st bytes 1, .ok none) := by
  simp [Engine.deserialize, Engine.readBody, Engine.resetForRead, ReaderState.reset, ReaderState.uint8,
    h0, and_null_beq, h, afterHeaderState]

end Lemmas2

/-- Claim C5: for every input whose first byte has the null flag set,
deserialize returns the null sentinel with the reader advanced exactly one
byte, the outcome not depending on the codec (its read routine is never
consulted) nor on any byte beyond the first. -/
theorem c5_deserialize_null_sentinel (st : EngineState) (bytes : List Byte) (ser : Serializer)
    (b : Nat) (h0 : bytes[0]? = some b) (h : b.testBit 0 = true) :
    Engine.deserialize st bytes ser = (afterHeaderState st bytes 1, .ok none) :=
  deserialize_null_flag st bytes ser b h0 h

/-- Witness for claim C5 at the concrete stream 01 63 63: the null sentinel
comes back after one byte even though two payload bytes follow. -/
theorem c5_deserialize_null_sentinel_witness :
    Engine.deserialize mkEngineDefault [1, 99, 99] trivialSerializer =
      (afterHeaderState mkEngineDefault [1, 99, 99] 1, .ok none) :=
  c5_deserialize_null_sentinel mkEngineDefault [1, 99, 99] trivialSerializer 1 rfl (by decide)

/-- Claim C9: the null flag takes precedence over protocol validation — a
first byte with the null flag set yields the null sentinel even when the
little-endian bit is cleared, the cross-language bit is cleared or the
out-of-band bit is set, and no protocol violation is raised. -/
theorem c9_null_flag_precedence (st : EngineState) (bytes : List Byte) (ser : Serializer)
    (b : Nat) (h0 : bytes[0]? = some b) (h : b.testBit 0 = true)
    (hbad : b.testBit 1 = false ∨ b.testBit 2 = false ∨ b.testBit 3 = true) :
    Engine.deserialize st bytes ser = (afterHeaderState st bytes 1, .ok none) ∧
    ∀ msg, (Engine.deserialize st bytes ser).2 ≠ .error (.protocolViolation msg) := by
  have hmain := deserialize_null_flag st bytes ser b h0 h
  refine ⟨hmain, fun msg hcontra => ?_⟩
  rw [hmain] at hcontra
  simp at hcontra

/-- Witness for claim C9 at the concrete stream 09: null flag and out-of-band
flag both set, little-endian and cross-language flags cleared, yet the null
sentinel is returned with no protocol violation. -/
theorem c9_null_flag_precedence_witness :
    Engine.deserialize mkEngineDefault [9] trivialSerializer =
      (afterHeaderState mkEngineDefault [9] 1, .ok none) ∧
    ∀ msg, (Engine.deserialize mkEngineDefault [9] trivialSerializer).2 ≠
      .error (.protocolViolation msg) :=
  c9_null_flag_precedence mkEngineDefault [9] trivialSerializer 9 rfl (by decide)
    (Or.inl (by decide))

/-- Counterexample to claim C3 as stated: the 1-byte stream 0E has the null
flag clear and the out-of-band bit set, yet deserialize fails with an
out-of-bounds read — not a ProtocolViolation — because the source checks the
out-of-band flag only after consuming the language-tag byte, which this
stream does not have. -/
theorem c3_counterexample_short_oob_stream :
    Engine.deserialize mkEngineDefault [14] trivialSerializer =
      (afterHeaderState mkEngineDefault [14] 1, .error .readOutOfBounds) ∧
    FuryError.readOutOfBounds.isProtocolViolation = false ∧
    Nat.testBit 14 0 = false ∧ Nat.testBit 14 1 = true ∧
    Nat.testBit 14 2 = true ∧ Nat.testBit 14 3 = true := by
  exact ⟨rfl, rfl, by decide, by decide, by decide, by decide⟩

/-- Claim C3 as amended: with the null flag clear, deserialize raises the
matching ProtocolViolation — consuming no payload bytes (the reader stops at
offset 1, or offset 2 in the out-of-band case, while the payload starts at
offset 10) and never invoking the codec's read routine — when the
little-endian bit is cleared, when the cross-language bit is cleared, and,
provided the language-tag byte is present in the stream, when the
out-of-band bit is set; a stream ending before the language tag fails with
an out-of-bounds read instead. -/
theorem c3_amended_protocol_rejection :
    (∀ (st : EngineState) (bytes : List Byte) (ser : Serializer) (b : Nat),
      bytes[0]? = some b → b.testBit 0 = false → b.testBit 1 = false →
      Engine.deserialize st bytes ser =
        (afterHeaderState st bytes 1,
          .error (.protocolViolation "big endian is not supported now"))) ∧
    (∀ (st : EngineState) (bytes : List Byte) (ser : Serializer) (b : Nat),
      bytes[0]? = some b → b.testBit 0 = false → b.testBit 1 = true → b.testBit 2 = false →
      Engine.deserialize st bytes ser =
        (afterHeaderState st bytes 1,
          .error (.protocolViolation "support crosslanguage mode only"))) ∧
    (∀ (st : EngineState) (bytes : List Byte) (ser : Serializer) (b b1 : Nat),
      bytes[0]? = some b → bytes[1]? = some b1 →
      b.testBit 0 = false → b.testBit 1 = true → b.testBit 2 = true → b.testBit 3 = true →
      Engine.deserialize st bytes ser =
        (afterHeaderState st bytes 2,
          .error (.protocolViolation "outofband mode is not supported now"))) := by
  refine ⟨?_, ?_, ?_⟩
  · intro st bytes ser b h0 hn hle
    simp [Engine.deserialize, Engine.readBody, Engine.resetForRead, ReaderState.reset, ReaderState.uint8,
      h0, and_null_beq, and_le_beq, hn, hle, afterHeaderState]
  · intro st bytes ser b h0 hn hle hx
    simp [Engine.deserialize, Engine.readBody, Engine.resetForRead, ReaderState.reset, ReaderState.uint8,
      h0, and_null_beq, and_le_beq, and_xlang_beq, hn, hle, hx, afterHeaderState]
  · intro st bytes ser b b1 h0 h1 hn hle hx ho
    simp [Engine.deserialize, Engine.readBody, Engine.resetForRead, ReaderState.reset, ReaderState.uint8,
      h0, h1, and_null_beq, and_le_beq, and_xlang_beq, and_oob_beq, hn, hle, hx, ho,
      afterHeaderState]

/-- Witness for the amended claim C3 at the streams 04, 02 and 0E 00: each
rejected branch produces its ProtocolViolation with the reader still inside
the header. -/
theorem c3_amended_protocol_rejection_witness :
    Engine.deserialize mkEngineDefault [4] trivialSerializer =
      (afterHeaderState mkEngineDefault [4] 1,
        .error (.protocolViolation "big endian is not supported now")) ∧
    Engine.deserialize mkEngineDefault [2] trivialSerializer =
      (afterHeaderState mkEngineDefault [2] 1,
        .error (.protocolViolation "support crosslanguage mode only")) ∧
    Engine.deserialize mkEngineDefault [14, 0] trivialSerializer =
      (afterHeaderState mkEngineDefault [14, 0] 2,
        .error (.protocolViolation "outofband mode is not supported now")) :=
  ⟨c3_amended_protocol_rejection.1 mkEngineDefault [4] trivialSerializer 4 rfl
      (by decide) (by decide),
    c3_amended_protocol_rejection.2.1 mkEngineDefault [2] trivialSerializer 2 rfl
      (by decide) (by decide) (by decide),
    c3_amended_protocol_rejection.2.2 mkEngineDefault [14, 0] trivialSerializer 14 0 rfl rfl
      (by decide) (by decide) (by decide) (by decide)⟩

/-- Claim C10: constructing an engine without a configuration argument
defaults to refTracking = false, useSliceString = false and an empty hooks
table, so reference tracking is disabled unless explicitly enabled. -/
theorem c10_constructor_defaults :
    mkEngineDefault.config.refTracking = false ∧
    mkEngineDefault.config.useSliceString = false ∧
    mkEngineDefault.config.hooks = [] :=
  ⟨rfl, rfl, rfl⟩

/-- Claim C8: registerSerializer compiles the codec exactly once — every
component of the returned handle is bound to the one codec
`generateSerializer` produced — and each returned closure is extensionally
equal to the corresponding engine operation applied with that codec. -/
theorem c8_registerSerializer_closures (st : EngineState) (d : TypeDescription) :
    (Engine.registerSerializer st d).serializer = generateSerializer st d ∧
    (∀ data st', (Engine.registerSerializer st d).serialize data st' =
      Engine.serialize st' data (generateSerializer st d)) ∧
    (∀ data st', (Engine.registerSerializer st d).serializeVolatile data st' =
      Engine.serializeVolatile st' data (generateSerializer st d)) ∧
    (∀ bytes st', (Engine.registerSerializer st d).deserialize bytes st' =
      Engine.deserialize st' bytes (generateSerializer st d)) :=
  ⟨rfl, fun _ _ => rfl, fun _ _ => rfl, fun _ _ => rfl⟩

/-- Claim C6: the write path of serialize/serializeVolatile refines the
spec's nine-step linear sequence — reset the writer, reset the resolvers,
write the bitmap, write the language tag, record the cursor and write the
4-byte placeholder and the 4-byte zero count, reserve the codec's hint,
invoke the codec's write routine, patch the placeholder with the post-write
cursor — and the two public operations differ only in the final extraction,
copying versus aliasing. -/
theorem c6_write_path_refines_spec (st : EngineState) (data : Option Value) (ser : Serializer) :
    Engine.serializeInternal st data ser = specWritePath st data ser ∧
    Engine.serialize st data ser =
      (match specWritePath st data ser with
        | .error e => (st, .error e)
        | .ok s => ({ s with binaryWriter := (s.binaryWriter.dump).2 },
            .ok (s.binaryWriter.dump).1)) ∧
    Engine.serializeVolatile st data ser =
      (match specWritePath st data ser with
        | .error e => (st, .error e)
        | .ok s => ({ s with binaryWriter := (s.binaryWriter.dumpAndOwn).2 },
            .ok (s.binaryWriter.dumpAndOwn).1)) := by
  have hmain : Engine.serializeInternal st data ser = specWritePath st data ser := by
    unfold Engine.serializeInternal specWritePath Engine.frameHeader
    cases h : st.binaryWriter.reset with
    | error e => rfl
    | ok w => simp only [headerBitmap_eq_spec]
  refine ⟨hmain, ?_, ?_⟩
  · unfold Engine.serialize
    rw [hmain]
  · unfold Engine.serializeVolatile
    rw [hmain]

section Lemmas3

/-- The bitmap written for the null sentinel: null, little-endian and
cross-language flags set. -/
lemma headerBitmap_none : headerBitmap none = 7 := by decide

/-- The bitmap written for a non-null value: little-endian and
cross-language flags set only. -/
lemma headerBitmap_some (v : Value) : headerBitmap (some v) = 6 := by
  unfold headerBitmap
  rw [if_neg (by simp)]
  decide

/-- The header bitmap fits in one byte, so the writer stores it verbatim. -/
lemma headerBitmap_mod (data : Option Value) : headerBitmap data % 256 = headerBitmap data := by
  cases data with
  | none => decide
  | some v => rw [headerBitmap_some]

/-- A writer with no pending-release marker resets successfully, to an empty
rewound buffer that keeps only the reserved capacity. -/
lemma writer_reset_ok (w : WriterState) (h : w.locked = false) :
    w.reset = .ok { data := [], cursor := 0, reserved := w.reserved, locked := false } := by
  simp [WriterState.reset, h]

/-- A successful writer reset yields the empty rewound buffer. -/
lemma writer_reset_inv (w w0 : WriterState) (h : w.reset = .ok w0) :
    w0 = { data := [], cursor := 0, reserved := w.reserved, locked := false } := by
  unfold WriterState.reset at h
  split at h
  · cases h
  · injection h with h2
    exact h2.symm

/-- With ownership available, `serializeInternal` always reaches the codec
and succeeds. -/
lemma serializeInternal_ok (st : EngineState) (data : Option Value) (ser : Serializer)
    (h : st.binaryWriter.locked = false) :
    ∃ s, Engine.serializeInternal st data ser = .ok s := by
  unfold Engine.serializeInternal
  rw [writer_reset_ok st.binaryWriter h]
  exact ⟨_, rfl⟩

end Lemmas3

/-- Step 8 of the write path as one function: patch the placeholder at
`pos` with the post-write cursor position. -/
def patchAfterWrite (s : EngineState) (pos : Nat) : EngineState :=
  { s with binaryWriter := s.binaryWriter.setUint32Position pos s.binaryWriter.getCursor }

/-- Counterexample to claim C1 as stated: with a codec that writes nothing,
`serialize` of the null sentinel produces a 10-byte stream — bitmap 07
(null, little-endian and cross-language bits set), the language tag, the
patched native-object offset 0A 00 00 00 and the zero count — not a 1-byte
stream. -/
theorem c1_counterexample_null_output_length :
    (Engine.serialize mkEngineDefault none trivialSerializer).2 =
      .ok [7, 0, 10, 0, 0, 0, 0, 0, 0, 0] ∧
    ([7, 0, 10, 0, 0, 0, 0, 0, 0, 0] : List Byte).length ≠ 1 ∧
    Nat.testBit 7 0 = true :=
  ⟨rfl, by decide, by decide⟩

/-- Claim C1 as amended: `serialize(null)` sets the null bit in the header
bitmap, but the output is not a 1-byte stream: the engine still writes the
full 10-byte frame header — bitmap 07, language tag, 4-byte placeholder and
4-byte zero count — still invokes the codec's write routine on the null
value, and still patches the placeholder; only `deserialize` stops after the
first byte. -/
theorem c1_amended_null_writes_full_header (st : EngineState) (ser : Serializer)
    (h : st.binaryWriter.locked = false) :
    ∃ pre : EngineState,
      Engine.frameHeader
          { st with binaryWriter :=
              { data := [], cursor := 0, reserved := st.binaryWriter.reserved, locked := false } }
          none ser = (2, pre) ∧
      pre.binaryWriter.data = [7, 0, 0, 0, 0, 0, 0, 0, 0, 0] ∧
      pre.binaryWriter.data.length = 10 ∧
      Nat.testBit 7 0 = true ∧
      Engine.serializeInternal st none ser =
        .ok (patchAfterWrite (ser.write none pre) 2) := by
  refine ⟨_, rfl, ?_, ?_, by decide, ?_⟩
  · simp [Engine.frameHeader, WriterState.uint8, WriterState.skip, WriterState.uint32,
      WriterState.reserve, headerBitmap_none, Language.XLANG, bytesLE4, List.replicate]
  · simp [Engine.frameHeader, WriterState.uint8, WriterState.skip, WriterState.uint32,
      WriterState.reserve, bytesLE4, List.replicate]
  · unfold Engine.serializeInternal
    rw [writer_reset_ok st.binaryWriter h]
    rfl

/-- Witness for the amended claim C1: at the default engine and the trivial
codec the full-header facts instantiate concretely. -/
theorem c1_amended_null_writes_full_header_witness :
    mkEngineDefault.binaryWriter.locked = false ∧
    ∃ pre : EngineState,
      Engine.frameHeader
          { mkEngineDefault with binaryWriter :=
              { data := [], cursor := 0, reserved := mkEngineDefault.binaryWriter.reserved,
                locked := false } }
          none trivialSerializer = (2, pre) ∧
      pre.binaryWriter.data = [7, 0, 0, 0, 0, 0, 0, 0, 0, 0] ∧
      pre.binaryWriter.data.length = 10 ∧
      Nat.testBit 7 0 = true ∧
      Engine.serializeInternal mkEngineDefault none trivialSerializer =
        .ok (patchAfterWrite (trivialSerializer.write none pre) 2) :=
  ⟨rfl, c1_amended_null_writes_full_header mkEngineDefault trivialSerializer rfl⟩

section Lemmas4

/-- With ownership available, the volatile path succeeds and installs the
pending-release marker. -/
lemma serializeVolatile_locks (st : EngineState) (data : Option Value) (ser : Serializer)
    (h : st.binaryWriter.locked = false) :
    ∃ st' out, Engine.serializeVolatile st data ser = (st', .ok out) ∧
      st'.binaryWriter.locked = true := by
  obtain ⟨s, hs⟩ := serializeInternal_ok st data ser h
  have hv : Engine.serializeVolatile st data ser =
      ({ s with binaryWriter := (s.binaryWriter.dumpAndOwn).2 },
        .ok (s.binaryWriter.dumpAndOwn).1) := by
    unfold Engine.serializeVolatile
    rw [hs]
  exact ⟨_, _, hv, rfl⟩

/-- With ownership available, the copying path succeeds. -/
lemma serialize_ok (st : EngineState) (data : Option Value) (ser : Serializer)
    (h : st.binaryWriter.locked = false) :
    ∃ st' out, Engine.serialize st data ser = (st', .ok out) := by
  obtain ⟨s, hs⟩ := serializeInternal_ok st data ser h
  have hv : Engine.serialize st data ser =
      ({ s with binaryWriter := (s.binaryWriter.dump).2 }, .ok (s.binaryWriter.dump).1) := by
    unfold Engine.serialize
    rw [hs]
  exact ⟨_, _, hv⟩

/-- A locked writer makes both write operations fail with the ownership
violation, leaving the engine state — marker included — untouched. -/
lemma locked_write_fails (st : EngineState) (data : Option Value) (ser : Serializer)
    (h : st.binaryWriter.locked = true) :
    Engine.serialize st data ser = (st, .error (.ownershipViolation permissionDeniedMsg)) ∧
    Engine.serializeVolatile st data ser =
      (st, .error (.ownershipViolation permissionDeniedMsg)) := by
  have hr : st.binaryWriter.reset = .error () := by simp [WriterState.reset, h]
  constructor
  · unfold Engine.serialize Engine.serializeInternal
    rw [hr]
  · unfold Engine.serializeVolatile Engine.serializeInternal
    rw [hr]

end Lemmas4

/-- Claim C2: while a volatile view is outstanding (the writer's
pending-release marker is set), both serialize and serializeVolatile fail
with the ownership violation and leave the state — marker included —
untouched, so the engine never auto-releases the view; a successful
serializeVolatile leaves the marker set; and after the disposer runs, the
next serialize or serializeVolatile succeeds, whatever state the engine was
in. -/
theorem c2_ownership_enforcement :
    (∀ (st : EngineState) (data : Option Value) (ser : Serializer),
      st.binaryWriter.locked = true →
      Engine.serialize st data ser = (st, .error (.ownershipViolation permissionDeniedMsg)) ∧
      Engine.serializeVolatile st data ser =
        (st, .error (.ownershipViolation permissionDeniedMsg))) ∧
    (∀ (st : EngineState) (data : Option Value) (ser : Serializer),
      st.binaryWriter.locked = false →
      ∃ st' out, Engine.serializeVolatile st data ser = (st', .ok out) ∧
        st'.binaryWriter.locked = true) ∧
    (∀ (st : EngineState) (data : Option Value) (ser : Serializer),
      ∃ st' out, Engine.serialize (Engine.dispose st) data ser = (st', .ok out)) ∧
    (∀ (st : EngineState) (data : Option Value) (ser : Serializer),
      ∃ st' out, Engine.serializeVolatile (Engine.dispose st) data ser = (st', .ok out)) := by
  refine ⟨locked_write_fails, serializeVolatile_locks, ?_, ?_⟩
  · intro st data ser
    exact serialize_ok (Engine.dispose st) data ser rfl
  · intro st data ser
    obtain ⟨st', out, h1, _⟩ := serializeVolatile_locks (Engine.dispose st) data ser rfl
    exact ⟨st', out, h1⟩

/-- Witness for claim C2, tracing one concrete call sequence on the default
engine: the fresh engine is unlocked; a volatile call succeeds and locks it;
the locked engine rejects a serialize with the ownership violation; after
the disposer, serialize succeeds again. -/
theorem c2_ownership_enforcement_witness :
    (∃ st' out,
      Engine.serializeVolatile mkEngineDefault none trivialSerializer = (st', .ok out) ∧
      st'.binaryWriter.locked = true) ∧
    (Engine.serialize (Engine.serializeVolatile mkEngineDefault none trivialSerializer).1
        none trivialSerializer =
      ((Engine.serializeVolatile mkEngineDefault none trivialSerializer).1,
        .error (.ownershipViolation permissionDeniedMsg))) ∧
    (∃ st' out,
      Engine.serialize
        (Engine.dispose (Engine.serializeVolatile mkEngineDefault none trivialSerializer).1)
        none trivialSerializer = (st', .ok out)) :=
  ⟨c2_ownership_enforcement.2.1 mkEngineDefault none trivialSerializer rfl,
    (c2_ownership_enforcement.1
      (Engine.serializeVolatile mkEngineDefault none trivialSerializer).1
      none trivialSerializer rfl).1,
    c2_ownership_enforcement.2.2.1
      (Engine.serializeVolatile mkEngineDefault none trivialSerializer).1
      none trivialSerializer⟩

/-- Claim C4: for every value and every codec, the header bitmap byte has
the little-endian and cross-language flags set, the out-of-band flag clear,
and the null flag set exactly when the value is the null sentinel; and the
write path of both operations places exactly that byte at offset 0 of the
buffer handed to the codec. -/
theorem c4_header_bitmap_invariant (data : Option Value) :
    (headerBitmap data).testBit 1 = true ∧
    (headerBitmap data).testBit 2 = true ∧
    (headerBitmap data).testBit 3 = false ∧
    ((headerBitmap data).testBit 0 = true ↔ data = none) ∧
    (∀ (st : EngineState) (ser : Serializer) (w0 : WriterState),
      st.binaryWriter.reset = .ok w0 →
      (Engine.frameHeader { st with binaryWriter := w0 } data ser).2.binaryWriter.data[0]? =
        some (headerBitmap data)) := by
  have hbits : (headerBitmap data).testBit 1 = true ∧ (headerBitmap data).testBit 2 = true ∧
      (headerBitmap data).testBit 3 = false ∧ ((headerBitmap data).testBit 0 = true ↔ data = none) := by
    cases data with
    | none => rw [headerBitmap_none]; refine ⟨by decide, by decide, by decide, by simp⟩
    | some v => rw [headerBitmap_some]; refine ⟨by decide, by decide, by decide, by simp⟩
  refine ⟨hbits.1, hbits.2.1, hbits.2.2.1, hbits.2.2.2, ?_⟩
  intro st ser w0 h
  rw [writer_reset_inv st.binaryWriter w0 h]
  simp [Engine.frameHeader, WriterState.uint8, WriterState.skip, WriterState.uint32,
    WriterState.reserve, headerBitmap_mod]

/-- Witness for claim C4 at the null sentinel on the default engine: the
flag facts and the byte landing at offset 0 instantiate concretely, the
reset hypothesis discharged at the fresh writer. -/
theorem c4_header_bitmap_invariant_witness :
    (headerBitmap none).testBit 1 = true ∧
    (headerBitmap none).testBit 2 = true ∧
    (headerBitmap none).testBit 3 = false ∧
    ((headerBitmap none).testBit 0 = true ↔ (none : Option Value) = none) ∧
    (Engine.frameHeader
        { mkEngineDefault with binaryWriter :=
            { data := [], cursor := 0, reserved := 0, locked := false } }
        none trivialSerializer).2.binaryWriter.data[0]? = some (headerBitmap none) :=
  ⟨(c4_header_bitmap_invariant none).1, (c4_header_bitmap_invariant none).2.1,
    (c4_header_bitmap_invariant none).2.2.1, (c4_header_bitmap_invariant none).2.2.2.1,
    (c4_header_bitmap_invariant none).2.2.2.2 mkEngineDefault trivialSerializer
      { data := [], cursor := 0, reserved := 0, locked := false } rfl⟩

section Lemmas5

/-- The per-call read resets do not depend on the incoming Reference
Resolver state or on the Class Resolver's transient layer. -/
lemma resetForRead_transient (st : EngineState) (bytes : List Byte) (r : RefResolverState)
    (t : List Nat) :
    Engine.resetForRead
        { st with referenceResolver := r,
                  classResolver := { st.classResolver with transient := t } } bytes =
      Engine.resetForRead st bytes := by
  simp [Engine.resetForRead, ClassResolverState.reset, ReaderState.reset]

/-- The write-path frame header does not depend on the incoming Reference
Resolver state or on the Class Resolver's transient layer. -/
lemma frameHeader_transient (st : EngineState) (data : Option Value) (ser : Serializer)
    (r : RefResolverState) (t : List Nat) :
    Engine.frameHeader
        { st with referenceResolver := r,
                  classResolver := { st.classResolver with transient := t } } data ser =
      Engine.frameHeader st data ser := by
  simp [Engine.frameHeader, ClassResolverState.reset]

end Lemmas5

/-- Claim C7: every serialize, serializeVolatile and deserialize call resets
the Reference Resolver and the Class Resolver's transient layer before any
header byte is written or read — the state in which the reader starts and
the state handed to the codec's write routine both carry empty per-call
resolver state and the untouched persistent table — and consequently the
outcome of every call is independent of whatever per-call resolver state
was left behind. -/
theorem c7_per_call_resolver_resets :
    (∀ (st : EngineState) (bytes : List Byte),
      (Engine.resetForRead st bytes).referenceResolver = RefResolverState.reset ∧
      (Engine.resetForRead st bytes).classResolver.transient = [] ∧
      (Engine.resetForRead st bytes).classResolver.table = st.classResolver.table ∧
      (Engine.resetForRead st bytes).binaryReader.cursor = 0) ∧
    (∀ (st : EngineState) (data : Option Value) (ser : Serializer),
      (Engine.frameHeader st data ser).2.referenceResolver = RefResolverState.reset ∧
      (Engine.frameHeader st data ser).2.classResolver.transient = [] ∧
      (Engine.frameHeader st data ser).2.classResolver.table = st.classResolver.table) ∧
    (∀ (st : EngineState) (bytes : List Byte) (ser : Serializer) (r : RefResolverState)
        (t : List Nat),
      Engine.deserialize
          { st with referenceResolver := r,
                    classResolver := { st.classResolver with transient := t } } bytes ser =
        Engine.deserialize st bytes ser) ∧
    (∀ (st : EngineState) (data : Option Value) (ser : Serializer) (r : RefResolverState)
        (t : List Nat),
      Engine.serializeInternal
          { st with referenceResolver := r,
                    classResolver := { st.classResolver with transient := t } } data ser =
        Engine.serializeInternal st data ser) := by
  refine ⟨?_, ?_, ?_, ?_⟩
  · intro st bytes
    exact ⟨rfl, rfl, rfl, rfl⟩
  · intro st data ser
    exact ⟨rfl, rfl, rfl⟩
  · intro st bytes ser r t
    unfold Engine.deserialize
    rw [resetForRead_transient]
  · intro st data ser r t
    rfl

end Fury
